import Mathlib

/-!
Shallow embedding of the miWallet repository for verification.

The embedded code:
* `FinanzasDB` (src/commons/ui/components/acordion/index.tsx): an IndexedDB
  wrapper with three object stores (`categorias`, `subcategorias`,
  `transacciones`), all with keyPath `id` and `autoIncrement`, seeded on
  first creation, plus CRUD operations and a financial summary.
* `useFinanzas` (same file): the React facade with `registrarIngreso`,
  `registrarGasto`, `registrarAhorro` and `obtenerResumen`, gated on a
  loading flag.
* `useIncome` (src/income/ui/hooks/use-income.tsx): a zustand store over a
  JavaScript `Map` keyed by uuid strings.

Modelling conventions: JavaScript numbers are embedded as `Int` (the claims
only involve exact arithmetic); a `Date` value is its epoch time as `Int`;
asynchronous methods become pure state-passing functions; IndexedDB request
failures become `Except JsError`.  Object-store rows are kept in insertion
order; every claim settled here is insensitive to `getAll` enumeration
order (the one ordering-sensitive claim, C7, is stated on multisets).
-/

set_option autoImplicit false

/-- `tipo: 'ingreso' | 'gasto' | 'ahorro'` of `interface Categoria`. -/
inductive Tipo
  | ingreso
  | gasto
  | ahorro
deriving DecidableEq, Repr

/-- `interface Categoria` of the source: optional auto-assigned `id`,
`nombre`, `tipo`. -/
structure Categoria where
  id : Option Nat
  nombre : String
  tipo : Tipo
deriving DecidableEq, Repr

/-- `interface Subcategoria` of the source. -/
structure Subcategoria where
  id : Option Nat
  nombre : String
  categoriaId : Nat
deriving DecidableEq, Repr

/-- The value held in the `fecha` field of a transaction before/after
coercion.  `dateObj t` is a JavaScript `Date` carrying epoch time `t`;
`numVal v` is a non-`Date` numeric value (falsy exactly when `v = 0`);
`undef` is a missing field (`undefined`). -/
inductive FechaValue
  | dateObj (time : Int)
  | numVal (v : Int)
  | undef
deriving DecidableEq, Repr

/-- `fecha instanceof Date`. -/
def FechaValue.isDateObj : FechaValue → Bool
  | .dateObj _ => true
  | _ => false

/-- The epoch time of `new Date(fecha || Date.now())` for a value `fecha`:
a `Date` keeps its time, a falsy value (missing, or the number `0`) is
replaced by `Date.now()`, any other number feeds `new Date` directly. -/
def FechaValue.orNow (now : Int) : FechaValue → Int
  | .dateObj t => t
  | .numVal v => if v = 0 then now else v
  | .undef => now

/-- `interface Transaccion` of the source. -/
structure Transaccion where
  id : Option Nat
  categoriaId : Nat
  subcategoriaId : Nat
  monto : Int
  descripcion : Option String
  fecha : FechaValue
deriving DecidableEq, Repr

/-- `interface ResumenFinanciero` of the source. -/
structure ResumenFinanciero where
  totalIngresos : Int
  totalGastos : Int
  totalAhorros : Int
  balance : Int
deriving DecidableEq, Repr

/-- Failures surfaced on the IndexedDB request error channel, as the
adapter rejects them: `notInitialized` is the exception thrown by
`_getStore` when `isInitialized`/`db` are unset; `constraintError` is the
engine ConstraintError (duplicate key or unique-index violation) on
`add`. -/
inductive JsError
  | notInitialized
  | constraintError
deriving DecidableEq, Repr

/-- Access to the `id` field used as keyPath by an object store. -/
structure KeyPath (α : Type) where
  getId : α → Option Nat
  setId : Nat → α → α

/-- An IndexedDB object store with keyPath `id` and `autoIncrement`:
`rows` are the stored records (each with its `id` injected), `nextKey` is
the state of the key generator (starts at 1). -/
structure ObjectStore (α : Type) where
  rows : List α
  nextKey : Nat
deriving DecidableEq, Repr

/-- A fresh object store as produced by `createObjectStore`. -/
def ObjectStore.create {α : Type} : ObjectStore α := ⟨[], 1⟩

/-- `store.add(x)`: rejects with ConstraintError when a unique index is
violated (`conflict`) or the record carries an explicit key already in
use; otherwise inserts, generating the key when the record has none and
bumping the generator past an explicit key. -/
def ObjectStore.add {α : Type} (kp : KeyPath α) (conflict : α → α → Bool)
    (s : ObjectStore α) (x : α) : ObjectStore α × Except JsError Nat :=
  if s.rows.any (fun r => conflict r x) then (s, .error .constraintError)
  else
    match kp.getId x with
    | none =>
        let k := s.nextKey
        (⟨s.rows ++ [kp.setId k x], k + 1⟩, .ok k)
    | some k =>
        if s.rows.any (fun r => decide (kp.getId r = some k)) then
          (s, .error .constraintError)
        else
          (⟨s.rows ++ [x], max s.nextKey (k + 1)⟩, .ok k)

/-- `store.put(x)`: insert-or-replace keyed by `id`; a record whose key is
present replaces that row, a fresh key inserts, a missing key is
auto-generated. -/
def ObjectStore.put {α : Type} (kp : KeyPath α) (s : ObjectStore α) (x : α) :
    ObjectStore α × Except JsError Nat :=
  match kp.getId x with
  | none =>
      let k := s.nextKey
      (⟨s.rows ++ [kp.setId k x], k + 1⟩, .ok k)
  | some k =>
      if s.rows.any (fun r => decide (kp.getId r = some k)) then
        (⟨s.rows.map (fun r => if kp.getId r = some k then x else r), max s.nextKey (k + 1)⟩, .ok k)
      else
        (⟨s.rows ++ [x], max s.nextKey (k + 1)⟩, .ok k)

/-- `store.delete(k)`: removes the record with key `k` when present;
succeeds either way. -/
def ObjectStore.deleteKey {α : Type} (kp : KeyPath α) (s : ObjectStore α) (k : Nat) :
    ObjectStore α :=
  ⟨s.rows.filter (fun r => decide (kp.getId r ≠ some k)), s.nextKey⟩

/-- `store.clear()`: removes every record (the key generator is not
reset by the engine). -/
def ObjectStore.clearAll {α : Type} (s : ObjectStore α) : ObjectStore α :=
  ⟨[], s.nextKey⟩

def Categoria.kp : KeyPath Categoria :=
  ⟨(·.id), fun k c => { c with id := some k }⟩

def Subcategoria.kp : KeyPath Subcategoria :=
  ⟨(·.id), fun k c => { c with id := some k }⟩

def Transaccion.kp : KeyPath Transaccion :=
  ⟨(·.id), fun k c => { c with id := some k }⟩

/-- The unique index `nombre` on the `categorias` store: adding a category
conflicts with a stored one of equal name. -/
def Categoria.nombreConflict (stored incoming : Categoria) : Bool :=
  stored.nombre = incoming.nombre

/-- The contents of the three object stores of the database. -/
structure DBData where
  categorias : ObjectStore Categoria
  subcategorias : ObjectStore Subcategoria
  transacciones : ObjectStore Transaccion
deriving DecidableEq, Repr

namespace DBData

/-- The database contents produced by `onupgradeneeded` at first creation:
each store is created and the default rows are added through `store.add`,
exactly as in `FinanzasDB.init`. -/
def seed : DBData :=
  let categorias :=
    let s0 : ObjectStore Categoria := ObjectStore.create
    let s1 := (s0.add Categoria.kp Categoria.nombreConflict ⟨none, "Ingreso", .ingreso⟩).1
    let s2 := (s1.add Categoria.kp Categoria.nombreConflict ⟨none, "Gasto", .gasto⟩).1
    (s2.add Categoria.kp Categoria.nombreConflict ⟨none, "Ahorro", .ahorro⟩).1
  let subcategorias :=
    let s0 : ObjectStore Subcategoria := ObjectStore.create
    let s1 := (s0.add Subcategoria.kp (fun _ _ => false) ⟨none, "Salario", 1⟩).1
    let s2 := (s1.add Subcategoria.kp (fun _ _ => false) ⟨none, "Alimentos", 2⟩).1
    (s2.add Subcategoria.kp (fun _ _ => false) ⟨none, "Fondo de emergencia", 3⟩).1
  { categorias := categorias
    subcategorias := subcategorias
    transacciones := ObjectStore.create }

/-- Body of `agregarCategoria`: `store.add(categoria)` on `categorias`. -/
def agregarCategoria (d : DBData) (categoria : Categoria) : DBData × Except JsError Nat :=
  let p := d.categorias.add Categoria.kp Categoria.nombreConflict categoria
  ({ d with categorias := p.1 }, p.2)

/-- Body of `agregarSubcategoria`: `store.add(subcategoria)` on
`subcategorias` (no unique index). -/
def agregarSubcategoria (d : DBData) (subcategoria : Subcategoria) : DBData × Except JsError Nat :=
  let p := d.subcategorias.add Subcategoria.kp (fun _ _ => false) subcategoria
  ({ d with subcategorias := p.1 }, p.2)

/-- Body of `registrarTransaccion`: first
`if (!(transaccion.fecha instanceof Date)) transaccion.fecha = new Date(transaccion.fecha || Date.now())`,
then `store.add(transaccion)` on `transacciones`. -/
def registrarTransaccion (d : DBData) (now : Int) (transaccion : Transaccion) :
    DBData × Except JsError Nat :=
  let transaccion :=
    if transaccion.fecha.isDateObj then transaccion
    else { transaccion with fecha := .dateObj (transaccion.fecha.orNow now) }
  let p := d.transacciones.add Transaccion.kp (fun _ _ => false) transaccion
  ({ d with transacciones := p.1 }, p.2)

/-- Body of `obtenerTransacciones`: `store.getAll()` on `transacciones`. -/
def obtenerTransacciones (d : DBData) : List Transaccion :=
  d.transacciones.rows

/-- Body of `obtenerTransaccionesPorCategoria`: the records whose
`categoriaId` index key equals the argument
(`store.index("categoriaId").getAll(categoriaId)`). -/
def obtenerTransaccionesPorCategoria (d : DBData) (categoriaId : Nat) : List Transaccion :=
  d.transacciones.rows.filter (fun t => decide (t.categoriaId = categoriaId))

/-- Body of `obtenerTransaccionesPorSubcategoria`. -/
def obtenerTransaccionesPorSubcategoria (d : DBData) (subcategoriaId : Nat) : List Transaccion :=
  d.transacciones.rows.filter (fun t => decide (t.subcategoriaId = subcategoriaId))

/-- Body of `obtenerTransaccionesPorFecha`: the records whose `fecha` index
key lies in `IDBKeyRange.bound(fechaInicio, fechaFin)`. -/
def obtenerTransaccionesPorFecha (d : DBData) (fechaInicio fechaFin : Int) : List Transaccion :=
  d.transacciones.rows.filter (fun t =>
    match t.fecha with
    | .dateObj x => decide (fechaInicio ≤ x ∧ x ≤ fechaFin)
    | _ => false)

/-- Body of `obtenerCategorias`: `store.getAll()` on `categorias`. -/
def obtenerCategorias (d : DBData) : List Categoria :=
  d.categorias.rows

/-- Body of `obtenerSubcategorias`. -/
def obtenerSubcategorias (d : DBData) : List Subcategoria :=
  d.subcategorias.rows

/-- Body of `obtenerSubcategoriasPorCategoria`. -/
def obtenerSubcategoriasPorCategoria (d : DBData) (categoriaId : Nat) : List Subcategoria :=
  d.subcategorias.rows.filter (fun s => decide (s.categoriaId = categoriaId))

/-- Body of `actualizarTransaccion`: `store.put(transaccion)` on
`transacciones`. -/
def actualizarTransaccion (d : DBData) (transaccion : Transaccion) :
    DBData × Except JsError Nat :=
  let p := d.transacciones.put Transaccion.kp transaccion
  ({ d with transacciones := p.1 }, p.2)

/-- Body of `eliminarTransaccion`: `store.delete(id)` on `transacciones`,
resolving `true` on success. -/
def eliminarTransaccion (d : DBData) (id : Nat) : DBData × Except JsError Bool :=
  ({ d with transacciones := d.transacciones.deleteKey Transaccion.kp id }, .ok true)

/-- Body of `limpiarDatos`: `store.clear()` on each of the three stores,
each clear resolving `true`. -/
def limpiarDatos (d : DBData) : DBData × Except JsError (List Bool) :=
  ({ categorias := d.categorias.clearAll
     subcategorias := d.subcategorias.clearAll
     transacciones := d.transacciones.clearAll }, .ok [true, true, true])

end DBData

/-- The lookup `categoriasMap[categoriaId]` where `categoriasMap` is the
record built by `categorias.reduce((map, cat) => { if (cat.id) map[cat.id] = cat; ... })`:
categories with a falsy id (missing or `0`) are skipped, and a later
category with the same id overwrites an earlier one. -/
def categoriasMapLookup (categorias : List Categoria) (categoriaId : Nat) : Option Categoria :=
  categorias.foldl
    (fun acc cat =>
      match cat.id with
      | some i => if i = 0 then acc else if i = categoriaId then some cat else acc
      | none => acc)
    none

/-- One step of the `transacciones.forEach` loop of
`obtenerResumenFinanciero`: resolve the category, skip when unresolved,
otherwise add `monto` to the total selected by `categoria.tipo`. -/
def resumenStep (categorias : List Categoria) (resumen : ResumenFinanciero)
    (transaccion : Transaccion) : ResumenFinanciero :=
  match categoriasMapLookup categorias transaccion.categoriaId with
  | none => resumen
  | some categoria =>
      match categoria.tipo with
      | .ingreso => { resumen with totalIngresos := resumen.totalIngresos + transaccion.monto }
      | .gasto => { resumen with totalGastos := resumen.totalGastos + transaccion.monto }
      | .ahorro => { resumen with totalAhorros := resumen.totalAhorros + transaccion.monto }

/-- Body of `obtenerResumenFinanciero`: read all transactions and all
categories, fold the totals starting from zero, then set
`balance = totalIngresos - totalGastos - totalAhorros`. -/
def DBData.obtenerResumenFinanciero (d : DBData) : ResumenFinanciero :=
  let transacciones := d.obtenerTransacciones
  let categorias := d.obtenerCategorias
  let resumen := transacciones.foldl (resumenStep categorias) ⟨0, 0, 0, 0⟩
  { resumen with balance := resumen.totalIngresos - resumen.totalGastos - resumen.totalAhorros }

/-- The category `tipo` a transaction resolves to through the summary
calculator's category map, when it resolves at all. -/
def resolvedTipo (categorias : List Categoria) (t : Transaccion) : Option Tipo :=
  (categoriasMapLookup categorias t.categoriaId).map (·.tipo)

/-- `interface FinanzasDBOptions`. -/
structure FinanzasDBOptions where
  dbName : Option String
  dbVersion : Option Nat
deriving DecidableEq, Repr

/-- The `FinanzasDB` instance fields: `dbName`, `dbVersion`, the cached
connection handle `db` (a handle number here) and `isInitialized`. -/
structure FinanzasDB where
  dbName : String
  dbVersion : Nat
  db : Option Nat
  isInitialized : Bool
deriving DecidableEq, Repr

/-- The browser environment the adapter talks to: `existing` is the named
database when it has been created (`none` before first creation), and
`nextHandle` numbers the connections handed out by `indexedDB.open`. -/
structure Env where
  existing : Option DBData
  nextHandle : Nat
deriving DecidableEq, Repr

/-- The rows of the `transacciones` store of the environment database. -/
def Env.transaccionesRows (env : Env) : List Transaccion :=
  match env.existing with
  | some d => d.transacciones.rows
  | none => []

/-- The rows of the `categorias` store of the environment database. -/
def Env.categoriasRows (env : Env) : List Categoria :=
  match env.existing with
  | some d => d.categorias.rows
  | none => []

/-- The rows of the `subcategorias` store of the environment database. -/
def Env.subcategoriasRows (env : Env) : List Subcategoria :=
  match env.existing with
  | some d => d.subcategorias.rows
  | none => []

/-- `new FinanzasDB(options)`: `options?.dbName || "finanzasPersonalesDB"`
and `options?.dbVersion || 1` (the JavaScript `||` replaces the falsy
values `""` and `0` by the default), `db = null`,
`isInitialized = false`. -/
def FinanzasDB.make (options : Option FinanzasDBOptions) : FinanzasDB :=
  { dbName :=
      match options.bind (·.dbName) with
      | some n => if n = "" then "finanzasPersonalesDB" else n
      | none => "finanzasPersonalesDB"
    dbVersion :=
      match options.bind (·.dbVersion) with
      | some v => if v = 0 then 1 else v
      | none => 1
    db := none
    isInitialized := false }

/-- Result of `init`: the updated instance, the updated environment, and
the resolved connection handle. -/
structure InitResult where
  self : FinanzasDB
  env : Env
  handle : Nat
deriving DecidableEq, Repr

/-- `FinanzasDB.init`: return the cached handle when
`this.isInitialized && this.db`; otherwise `indexedDB.open`, which runs
`onupgradeneeded` (creating and seeding the stores) exactly when the named
database does not exist yet, then caches the new handle and sets
`isInitialized`.  A version bump on an existing database is not modelled:
the source upgrade callback only ever creates missing stores, so an
existing database is left unchanged either way. -/
def FinanzasDB.init (self : FinanzasDB) (env : Env) : InitResult :=
  match self.isInitialized, self.db with
  | true, some h => ⟨self, env, h⟩
  | _, _ =>
      let env1 : Env :=
        match env.existing with
        | some _ => env
        | none => { env with existing := some DBData.seed }
      let h := env1.nextHandle
      ⟨{ self with db := some h, isInitialized := true },
        { env1 with nextHandle := h + 1 }, h⟩

/-- The guard of the private `_getStore` helper: it throws
"La base de datos no está inicializada" unless
`this.isInitialized && this.db`. -/
def FinanzasDB.getStoreOk (self : FinanzasDB) : Bool :=
  self.isInitialized && self.db.isSome

/-- Result of a public adapter operation. -/
structure OpResult (β : Type) where
  self : FinanzasDB
  env : Env
  result : Except JsError β

/-- Common shape of every public `FinanzasDB` method: `await this.init()`,
then open a transaction through `_getStore` (whose guard throws
`notInitialized` when it fails) and run the request `body` against the
stored data. -/
def FinanzasDB.runOp {β : Type} (self : FinanzasDB) (env : Env)
    (body : DBData → DBData × Except JsError β) : OpResult β :=
  let r := self.init env
  if r.self.getStoreOk then
    match r.env.existing with
    | some d =>
        let p := body d
        ⟨r.self, { r.env with existing := some p.1 }, p.2⟩
    | none => ⟨r.self, r.env, .error .notInitialized⟩
  else ⟨r.self, r.env, .error .notInitialized⟩

/-- Public `agregarCategoria`. -/
def FinanzasDB.agregarCategoria (self : FinanzasDB) (env : Env) (categoria : Categoria) :
    OpResult Nat :=
  self.runOp env (fun d => d.agregarCategoria categoria)

/-- Public `agregarSubcategoria`. -/
def FinanzasDB.agregarSubcategoria (self : FinanzasDB) (env : Env) (subcategoria : Subcategoria) :
    OpResult Nat :=
  self.runOp env (fun d => d.agregarSubcategoria subcategoria)

/-- Public `registrarTransaccion` (`now` is the value `Date.now()` would
produce during the call). -/
def FinanzasDB.registrarTransaccion (self : FinanzasDB) (env : Env) (now : Int)
    (transaccion : Transaccion) : OpResult Nat :=
  self.runOp env (fun d => d.registrarTransaccion now transaccion)

/-- Public `obtenerTransacciones`. -/
def FinanzasDB.obtenerTransacciones (self : FinanzasDB) (env : Env) :
    OpResult (List Transaccion) :=
  self.runOp env (fun d => (d, .ok d.obtenerTransacciones))

/-- Public `obtenerTransaccionesPorCategoria`. -/
def FinanzasDB.obtenerTransaccionesPorCategoria (self : FinanzasDB) (env : Env)
    (categoriaId : Nat) : OpResult (List Transaccion) :=
  self.runOp env (fun d => (d, .ok (d.obtenerTransaccionesPorCategoria categoriaId)))

/-- Public `obtenerTransaccionesPorSubcategoria`. -/
def FinanzasDB.obtenerTransaccionesPorSubcategoria (self : FinanzasDB) (env : Env)
    (subcategoriaId : Nat) : OpResult (List Transaccion) :=
  self.runOp env (fun d => (d, .ok (d.obtenerTransaccionesPorSubcategoria subcategoriaId)))

/-- Public `obtenerTransaccionesPorFecha`. -/
def FinanzasDB.obtenerTransaccionesPorFecha (self : FinanzasDB) (env : Env)
    (fechaInicio fechaFin : Int) : OpResult (List Transaccion) :=
  self.runOp env (fun d => (d, .ok (d.obtenerTransaccionesPorFecha fechaInicio fechaFin)))

/-- Public `obtenerCategorias`. -/
def FinanzasDB.obtenerCategorias (self : FinanzasDB) (env : Env) :
    OpResult (List Categoria) :=
  self.runOp env (fun d => (d, .ok d.obtenerCategorias))

/-- Public `obtenerSubcategorias`. -/
def FinanzasDB.obtenerSubcategorias (self : FinanzasDB) (env : Env) :
    OpResult (List Subcategoria) :=
  self.runOp env (fun d => (d, .ok d.obtenerSubcategorias))

/-- Public `obtenerSubcategoriasPorCategoria`. -/
def FinanzasDB.obtenerSubcategoriasPorCategoria (self : FinanzasDB) (env : Env)
    (categoriaId : Nat) : OpResult (List Subcategoria) :=
  self.runOp env (fun d => (d, .ok (d.obtenerSubcategoriasPorCategoria categoriaId)))

/-- Public `actualizarTransaccion`. -/
def FinanzasDB.actualizarTransaccion (self : FinanzasDB) (env : Env)
    (transaccion : Transaccion) : OpResult Nat :=
  self.runOp env (fun d => d.actualizarTransaccion transaccion)

/-- Public `eliminarTransaccion`. -/
def FinanzasDB.eliminarTransaccion (self : FinanzasDB) (env : Env) (id : Nat) :
    OpResult Bool :=
  self.runOp env (fun d => d.eliminarTransaccion id)

/-- Public `obtenerResumenFinanciero` (its reads `obtenerTransacciones`
and `obtenerCategorias` re-run `init`, which is a no-op then). -/
def FinanzasDB.obtenerResumenFinanciero (self : FinanzasDB) (env : Env) :
    OpResult ResumenFinanciero :=
  self.runOp env (fun d => (d, .ok d.obtenerResumenFinanciero))

/-- Public `limpiarDatos`. -/
def FinanzasDB.limpiarDatos (self : FinanzasDB) (env : Env) : OpResult (List Bool) :=
  self.runOp env (fun d => d.limpiarDatos)

/-- The argument type of the facade entry points:
`Omit<Transaccion, 'categoriaId' | 'fecha'> & { fecha?: Date }`. -/
structure TransaccionData where
  id : Option Nat
  subcategoriaId : Nat
  monto : Int
  descripcion : Option String
  fecha : Option Int
deriving DecidableEq, Repr

namespace UseFinanzas

/-- `registrarIngreso` of `useFinanzas`: `undefined` while `isLoading`,
otherwise builds the transaction with `categoriaId: 1` and
`fecha: new Date(data.fecha || Date.now())` (a `Date` argument is always
truthy) and delegates to `db.registrarTransaccion`. -/
def registrarIngreso (isLoading : Bool) (self : FinanzasDB) (env : Env) (now : Int)
    (data : TransaccionData) : FinanzasDB × Env × Option (Except JsError Nat) :=
  if isLoading then (self, env, none)
  else
    let transaccion : Transaccion :=
      { id := data.id
        categoriaId := 1
        subcategoriaId := data.subcategoriaId
        monto := data.monto
        descripcion := data.descripcion
        fecha := .dateObj (data.fecha.getD now) }
    let r := self.registrarTransaccion env now transaccion
    (r.self, r.env, some r.result)

/-- `registrarGasto` of `useFinanzas`: same with `categoriaId: 2`. -/
def registrarGasto (isLoading : Bool) (self : FinanzasDB) (env : Env) (now : Int)
    (data : TransaccionData) : FinanzasDB × Env × Option (Except JsError Nat) :=
  if isLoading then (self, env, none)
  else
    let transaccion : Transaccion :=
      { id := data.id
        categoriaId := 2
        subcategoriaId := data.subcategoriaId
        monto := data.monto
        descripcion := data.descripcion
        fecha := .dateObj (data.fecha.getD now) }
    let r := self.registrarTransaccion env now transaccion
    (r.self, r.env, some r.result)

/-- `registrarAhorro` of `useFinanzas`: same with `categoriaId: 3`. -/
def registrarAhorro (isLoading : Bool) (self : FinanzasDB) (env : Env) (now : Int)
    (data : TransaccionData) : FinanzasDB × Env × Option (Except JsError Nat) :=
  if isLoading then (self, env, none)
  else
    let transaccion : Transaccion :=
      { id := data.id
        categoriaId := 3
        subcategoriaId := data.subcategoriaId
        monto := data.monto
        descripcion := data.descripcion
        fecha := .dateObj (data.fecha.getD now) }
    let r := self.registrarTransaccion env now transaccion
    (r.self, r.env, some r.result)

/-- `obtenerResumen` of `useFinanzas`: `null` while `isLoading`, otherwise
`db.obtenerResumenFinanciero()`. -/
def obtenerResumen (isLoading : Bool) (self : FinanzasDB) (env : Env) :
    FinanzasDB × Env × Option (Except JsError ResumenFinanciero) :=
  if isLoading then (self, env, none)
  else
    let r := self.obtenerResumenFinanciero env
    (r.self, r.env, some r.result)

end UseFinanzas

/-- A JavaScript `Map` with string keys, as an entry list in insertion
order (a real `Map` never holds two entries with one key; the operations
below preserve that). -/
structure JsMap (β : Type) where
  entries : List (String × β)
deriving DecidableEq, Repr

namespace JsMap

/-- Entry-list form of `Map.prototype.set`. -/
def setEntries {β : Type} : List (String × β) → String → β → List (String × β)
  | [], k, v => [(k, v)]
  | (k1, v1) :: rest, k, v =>
      if k1 = k then (k, v) :: rest else (k1, v1) :: setEntries rest k v

/-- Entry-list form of `Map.prototype.delete`. -/
def deleteEntries {β : Type} : List (String × β) → String → List (String × β)
  | [], _ => []
  | (k1, v1) :: rest, k =>
      if k1 = k then rest else (k1, v1) :: deleteEntries rest k

/-- Entry-list form of `Map.prototype.get`. -/
def getEntries {β : Type} : List (String × β) → String → Option β
  | [], _ => none
  | (k1, v1) :: rest, k => if k1 = k then some v1 else getEntries rest k

/-- `map.set(k, v)`: replaces the value of an existing entry in place,
otherwise appends a new entry. -/
def set {β : Type} (m : JsMap β) (k : String) (v : β) : JsMap β :=
  ⟨setEntries m.entries k v⟩

/-- `map.delete(k)`: removes the entry with key `k` when present. -/
def delete {β : Type} (m : JsMap β) (k : String) : JsMap β :=
  ⟨deleteEntries m.entries k⟩

/-- `map.get(k)`. -/
def get {β : Type} (m : JsMap β) (k : String) : Option β :=
  getEntries m.entries k

end JsMap

/-- `interface Income` of src/income/ui/hooks/use-income.tsx. -/
structure Income where
  id : String
  name : String
  value : String
  isDeductible : Bool
  description : Option String
deriving DecidableEq, Repr

/-- `Omit<Income, 'id'>`, the argument of `addIncome`. -/
structure IncomeInput where
  name : String
  value : String
  isDeductible : Bool
  description : Option String
deriving DecidableEq, Repr

/-- The `incomes` map of the zustand store. -/
structure IncomeState where
  incomes : JsMap Income
deriving DecidableEq, Repr

namespace UseIncome

/-- `addIncome` of `useIncome`: clone the map, then
`clonedIncome.set(uuid, { ...income, id: uuid })` with `uuid` the freshly
generated `uuidv4()` (passed in here). -/
def addIncome (uuid : String) (income : IncomeInput) (state : IncomeState) : IncomeState :=
  { incomes :=
      state.incomes.set uuid
        { id := uuid
          name := income.name
          value := income.value
          isDeductible := income.isDeductible
          description := income.description } }

/-- `removeIncome` of `useIncome`: clone the map, then
`clonedIncome.delete(id)`. -/
def removeIncome (id : String) (state : IncomeState) : IncomeState :=
  { incomes := state.incomes.delete id }

/-- `updateIncome` of `useIncome`: `state.incomes.set(id, income)`. -/
def updateIncome (id : String) (income : Income) (state : IncomeState) : IncomeState :=
  { incomes := state.incomes.set id income }

end UseIncome

/-- States reachable by the adapter: whenever the instance believes it
holds a live connection (`isInitialized` and a cached `db` handle), the
named browser database it opened actually exists.  Every state produced by
the constructor (`isInitialized = false`) or by a resolved `init` call
satisfies this. -/
def FinanzasDB.wellFormed (self : FinanzasDB) (env : Env) : Prop :=
  self.isInitialized = true → self.db.isSome = true → env.existing.isSome = true

/-- Spec-side reading used to state C1: the sum of the amounts of the
transactions whose resolved category has the given kind.  This follows the
words of the specification and is compared against the summary the code
computes. -/
def sumBy (categorias : List Categoria) (tipo : Tipo) (ts : List Transaccion) : Int :=
  ((ts.filter (fun t => decide (resolvedTipo categorias t = some tipo))).map Transaccion.monto).sum

/-- The concrete scenario of C1: a fresh adapter on a fresh browser
environment, then one income transaction of amount 100, one expense of 40
and one savings of 10. -/
def escenarioC1 : OpResult ResumenFinanciero :=
  let fdb := FinanzasDB.make none
  let env : Env := ⟨none, 1⟩
  let r0 := fdb.init env
  let r1 := FinanzasDB.registrarTransaccion r0.self r0.env 0 ⟨none, 1, 1, 100, none, .dateObj 0⟩
  let r2 := FinanzasDB.registrarTransaccion r1.self r1.env 0 ⟨none, 2, 1, 40, none, .dateObj 0⟩
  let r3 := FinanzasDB.registrarTransaccion r2.self r2.env 0 ⟨none, 3, 1, 10, none, .dateObj 0⟩
  FinanzasDB.obtenerResumenFinanciero r3.self r3.env

/-- Concrete database used to witness C8: one stored transaction with
id 1, key generator at 2. -/
def dbC8W : DBData :=
  { categorias := ObjectStore.create
    subcategorias := ObjectStore.create
    transacciones := ⟨[⟨some 1, 1, 1, 5, none, FechaValue.dateObj 0⟩], 2⟩ }

/-- Concrete update input used to witness C8: carries the fresh id 5. -/
def txC8W : Transaccion := ⟨some 5, 2, 2, 7, none, FechaValue.dateObj 3⟩

/-- Concrete income store used to witness C10: one entry under key "a". -/
def stC10W : IncomeState := ⟨⟨[("a", ⟨"a", "salary", "100", false, none⟩)]⟩⟩

/-- Concrete `addIncome` input used to witness C10. -/
def incC10W : IncomeInput := ⟨"bonus", "50", true, none⟩

/-- Concrete `updateIncome` replacement used to witness C10. -/
def updC10W : Income := ⟨"a", "rent", "70", false, none⟩

/-! Helper lemmas. -/

theorem FinanzasDB.init_getStoreOk (self : FinanzasDB) (env : Env) :
    ((self.init env).self).getStoreOk = true := by
  rcases self with ⟨n, v, db, ini⟩
  rcases env with ⟨ex, nh⟩
  cases ini <;> cases db <;> cases ex <;>
    simp [FinanzasDB.init, FinanzasDB.getStoreOk]

theorem FinanzasDB.init_existing_preserved (self : FinanzasDB) (env : Env) (d : DBData)
    (hex : env.existing = some d) : ((self.init env).env).existing = some d := by
  rcases self with ⟨n, v, db, ini⟩
  rcases env with ⟨ex, nh⟩
  cases ini <;> cases db <;> simp_all [FinanzasDB.init]

theorem FinanzasDB.init_existing_isSome (self : FinanzasDB) (env : Env)
    (h : FinanzasDB.wellFormed self env) : (((self.init env).env).existing).isSome = true := by
  rcases self with ⟨n, v, db, ini⟩
  rcases env with ⟨ex, nh⟩
  cases ini <;> cases db <;> cases ex <;>
    simp_all [FinanzasDB.init, FinanzasDB.wellFormed]

theorem FinanzasDB.runOp_existing {β : Type} (self : FinanzasDB) (env : Env) (d : DBData)
    (body : DBData → DBData × Except JsError β) (hex : env.existing = some d) :
    self.runOp env body
      = ⟨(self.init env).self,
         { (self.init env).env with existing := some (body d).1 },
         (body d).2⟩ := by
  have h1 := self.init_getStoreOk env
  have h2 := self.init_existing_preserved env d hex
  simp [FinanzasDB.runOp, h1, h2]

theorem FinanzasDB.runOp_ne_notInit {β : Type} (self : FinanzasDB) (env : Env)
    (body : DBData → DBData × Except JsError β) (hwf : FinanzasDB.wellFormed self env)
    (hbody : ∀ d, (body d).2 ≠ .error .notInitialized) :
    (self.runOp env body).result ≠ .error .notInitialized := by
  have h1 := self.init_getStoreOk env
  have h2 := self.init_existing_isSome env hwf
  cases hex : ((self.init env).env).existing with
  | none => rw [hex] at h2; simp at h2
  | some d =>
      simp [FinanzasDB.runOp, h1, hex]
      exact hbody d

theorem ObjectStore.add_ne_notInit {α : Type} (kp : KeyPath α) (conflict : α → α → Bool)
    (s : ObjectStore α) (x : α) :
    (ObjectStore.add kp conflict s x).2 ≠ .error .notInitialized := by
  unfold ObjectStore.add
  split
  · simp
  · split
    · simp
    · split <;> simp

theorem ObjectStore.put_ne_notInit {α : Type} (kp : KeyPath α)
    (s : ObjectStore α) (x : α) :
    (ObjectStore.put kp s x).2 ≠ .error .notInitialized := by
  unfold ObjectStore.put
  split
  · simp
  · split <;> simp

theorem sumBy_nil (categorias : List Categoria) (tipo : Tipo) :
    sumBy categorias tipo [] = 0 := rfl

theorem sumBy_cons (categorias : List Categoria) (tipo : Tipo) (t : Transaccion)
    (ts : List Transaccion) :
    sumBy categorias tipo (t :: ts)
      = (if resolvedTipo categorias t = some tipo then t.monto else 0)
          + sumBy categorias tipo ts := by
  by_cases h : resolvedTipo categorias t = some tipo <;>
    simp [sumBy, List.filter_cons, h]

theorem foldl_resumenStep (categorias : List Categoria) (ts : List Transaccion)
    (r : ResumenFinanciero) :
    ts.foldl (resumenStep categorias) r
      = ⟨r.totalIngresos + sumBy categorias .ingreso ts,
         r.totalGastos + sumBy categorias .gasto ts,
         r.totalAhorros + sumBy categorias .ahorro ts,
         r.balance⟩ := by
  induction ts generalizing r with
  | nil => cases r; simp [sumBy_nil]
  | cons t ts ih =>
      rw [List.foldl_cons, ih]
      rcases hres : categoriasMapLookup categorias t.categoriaId with _ | c
      · have hrt : resolvedTipo categorias t = none := by
          simp [resolvedTipo, hres]
        simp [resumenStep, hres, sumBy_cons, hrt]
      · have hrt : resolvedTipo categorias t = some c.tipo := by
          simp [resolvedTipo, hres]
        cases htipo : c.tipo <;>
          rw [htipo] at hrt <;>
          simp [resumenStep, hres, htipo, sumBy_cons, hrt,
            ResumenFinanciero.mk.injEq] <;>
          omega

theorem obtenerResumenFinanciero_eq (d : DBData) :
    d.obtenerResumenFinanciero
      = ⟨sumBy d.obtenerCategorias .ingreso d.obtenerTransacciones,
         sumBy d.obtenerCategorias .gasto d.obtenerTransacciones,
         sumBy d.obtenerCategorias .ahorro d.obtenerTransacciones,
         sumBy d.obtenerCategorias .ingreso d.obtenerTransacciones
           - sumBy d.obtenerCategorias .gasto d.obtenerTransacciones
           - sumBy d.obtenerCategorias .ahorro d.obtenerTransacciones⟩ := by
  simp [DBData.obtenerResumenFinanciero, foldl_resumenStep]

theorem sumBy_filter_resolvable (categorias : List Categoria) (tipo : Tipo)
    (ts : List Transaccion) :
    sumBy categorias tipo
        (ts.filter (fun t => (categoriasMapLookup categorias t.categoriaId).isSome))
      = sumBy categorias tipo ts := by
  induction ts with
  | nil => rfl
  | cons t ts ih =>
      rw [List.filter_cons]
      rcases hres : categoriasMapLookup categorias t.categoriaId with _ | c
      · have hrt : resolvedTipo categorias t = none := by
          simp [resolvedTipo, hres]
        simp [hres, sumBy_cons, hrt, ih]
      · simp [hres, sumBy_cons, ih]

namespace JsMap

variable {β : Type}

theorem setEntries_of_get_none (l : List (String × β)) (k : String) (v : β)
    (h : getEntries l k = none) : setEntries l k v = l ++ [(k, v)] := by
  induction l with
  | nil => rfl
  | cons e rest ih =>
      rcases e with ⟨k1, v1⟩
      by_cases hk : k1 = k
      · simp [getEntries, hk] at h
      · simp [getEntries, hk] at h
        simp [setEntries, hk, ih h]

theorem getEntries_set_self (l : List (String × β)) (k : String) (v : β) :
    getEntries (setEntries l k v) k = some v := by
  induction l with
  | nil => simp [setEntries, getEntries]
  | cons e rest ih =>
      rcases e with ⟨k1, v1⟩
      by_cases hk : k1 = k <;> simp [setEntries, getEntries, hk, ih]

theorem getEntries_set_ne (l : List (String × β)) (k j : String) (v : β)
    (hne : j ≠ k) : getEntries (setEntries l k v) j = getEntries l j := by
  induction l with
  | nil => simp [setEntries, getEntries, Ne.symm hne]
  | cons e rest ih =>
      rcases e with ⟨k1, v1⟩
      by_cases hk : k1 = k
      · subst hk
        simp [setEntries, getEntries, Ne.symm hne]
      · simp [setEntries, getEntries, hk, ih]

theorem length_setEntries_of_isSome (l : List (String × β)) (k : String) (v : β)
    (h : (getEntries l k).isSome = true) :
    (setEntries l k v).length = l.length := by
  induction l with
  | nil => simp [getEntries] at h
  | cons e rest ih =>
      rcases e with ⟨k1, v1⟩
      by_cases hk : k1 = k
      · simp [setEntries, hk]
      · simp [getEntries, hk] at h
        simp [setEntries, hk, ih h]

theorem deleteEntries_of_get_none (l : List (String × β)) (k : String)
    (h : getEntries l k = none) : deleteEntries l k = l := by
  induction l with
  | nil => rfl
  | cons e rest ih =>
      rcases e with ⟨k1, v1⟩
      by_cases hk : k1 = k
      · simp [getEntries, hk] at h
      · simp [getEntries, hk] at h
        simp [deleteEntries, hk, ih h]

theorem getEntries_delete_ne (l : List (String × β)) (k j : String)
    (hne : j ≠ k) : getEntries (deleteEntries l k) j = getEntries l j := by
  induction l with
  | nil => rfl
  | cons e rest ih =>
      rcases e with ⟨k1, v1⟩
      by_cases hk : k1 = k
      · subst hk
        simp [deleteEntries, getEntries, Ne.symm hne]
      · simp [deleteEntries, getEntries, hk, ih]

theorem length_deleteEntries_of_isSome (l : List (String × β)) (k : String)
    (h : (getEntries l k).isSome = true) :
    (deleteEntries l k).length + 1 = l.length := by
  induction l with
  | nil => simp [getEntries] at h
  | cons e rest ih =>
      rcases e with ⟨k1, v1⟩
      by_cases hk : k1 = k
      · simp [deleteEntries, hk]
      · simp [getEntries, hk] at h
        simp [deleteEntries, hk, ih h]

end JsMap

theorem ObjectStore.add_auto {α : Type} (kp : KeyPath α) (conflict : α → α → Bool)
    (s : ObjectStore α) (x : α) (hid : kp.getId x = none)
    (hc : ∀ r ∈ s.rows, conflict r x = false) :
    ObjectStore.add kp conflict s x
      = (⟨s.rows ++ [kp.setId s.nextKey x], s.nextKey + 1⟩, .ok s.nextKey) := by
  have hany : s.rows.any (fun r => conflict r x) = false :=
    List.any_eq_false.mpr (by intro r hr; simp [hc r hr])
  simp [ObjectStore.add, hany, hid]

theorem ObjectStore.put_fresh {α : Type} (kp : KeyPath α) (s : ObjectStore α) (x : α)
    (k : Nat) (hid : kp.getId x = some k)
    (habs : ∀ r ∈ s.rows, kp.getId r ≠ some k) :
    ObjectStore.put kp s x = (⟨s.rows ++ [x], max s.nextKey (k + 1)⟩, .ok k) := by
  have hany : s.rows.any (fun r => decide (kp.getId r = some k)) = false :=
    List.any_eq_false.mpr (by intro r hr; simp [habs r hr])
  simp [ObjectStore.put, hid, hany]

theorem DBData.registrarTransaccion_auto (d : DBData) (now : Int) (t : Transaccion)
    (hid : t.id = none) :
    d.registrarTransaccion now t
      = ({ d with transacciones :=
            ⟨d.transacciones.rows ++
                [{ (if t.fecha.isDateObj then t
                    else { t with fecha := .dateObj (t.fecha.orNow now) }) with
                      id := some d.transacciones.nextKey }],
              d.transacciones.nextKey + 1⟩ },
          .ok d.transacciones.nextKey) := by
  have hc : Transaccion.kp.getId
      (if t.fecha.isDateObj then t
       else { t with fecha := .dateObj (t.fecha.orNow now) }) = none := by
    simp only [Transaccion.kp]
    split <;> simp [hid]
  simp only [DBData.registrarTransaccion]
  rw [ObjectStore.add_auto Transaccion.kp _ _ _ hc (fun r _ => rfl)]
  simp [Transaccion.kp]

/-! Claim theorems. -/

/-- Claim C1: for every stored set of transactions and categories,
`obtenerResumenFinanciero` returns totals where each total is the sum of
the amounts of the transactions whose resolved category has the matching
kind, and `balance = totalIngresos - totalGastos - totalAhorros`; in
particular, the concrete scenario of one income of 100, one expense of 40
and one savings of 10 yields totals 100, 40, 10 and balance 50. -/
theorem C1_resumen_totales :
    (∀ d : DBData,
      (d.obtenerResumenFinanciero).totalIngresos
          = sumBy d.obtenerCategorias .ingreso d.obtenerTransacciones ∧
      (d.obtenerResumenFinanciero).totalGastos
          = sumBy d.obtenerCategorias .gasto d.obtenerTransacciones ∧
      (d.obtenerResumenFinanciero).totalAhorros
          = sumBy d.obtenerCategorias .ahorro d.obtenerTransacciones ∧
      (d.obtenerResumenFinanciero).balance
          = (d.obtenerResumenFinanciero).totalIngresos
              - (d.obtenerResumenFinanciero).totalGastos
              - (d.obtenerResumenFinanciero).totalAhorros) ∧
    escenarioC1.result = .ok ⟨100, 40, 10, 50⟩ := by
  constructor
  · intro d
    simp [obtenerResumenFinanciero_eq]
  · rfl

/-- Claim C2: the summary is unchanged when the transactions whose
`categoriaId` resolves to no stored category are dropped beforehand: such
transactions contribute to none of the three totals nor to the balance,
and the summary over the remaining transactions is returned normally. -/
theorem C2_resumen_ignora_no_resueltas (d : DBData) :
    DBData.obtenerResumenFinanciero
        { d with transacciones :=
            { d.transacciones with rows :=
                (d.transacciones.rows.filter
                  (fun t => (categoriasMapLookup d.categorias.rows t.categoriaId).isSome)) } }
      = d.obtenerResumenFinanciero := by
  rw [obtenerResumenFinanciero_eq, obtenerResumenFinanciero_eq]
  simp [DBData.obtenerTransacciones, DBData.obtenerCategorias, sumBy_filter_resolvable]

/-- Claim C4: `init` is idempotent on one adapter instance: after a first
call, a second call returns the identical instance state, environment and
connection handle, so the stored categories and subcategories after two
calls equal those after one call (no re-creation, no re-seeding). -/
theorem C4_init_idempotente (self : FinanzasDB) (env : Env) :
    ((self.init env).self.init (self.init env).env) = self.init env ∧
    Env.categoriasRows (((self.init env).self.init (self.init env).env).env)
      = Env.categoriasRows ((self.init env).env) ∧
    Env.subcategoriasRows (((self.init env).self.init (self.init env).env).env)
      = Env.subcategoriasRows ((self.init env).env) := by
  have h : ((self.init env).self.init (self.init env).env) = self.init env := by
    rcases self with ⟨nm, v, db, ini⟩
    rcases env with ⟨ex, nh⟩
    cases ini <;> cases db <;> cases ex <;> simp [FinanzasDB.init]
  exact ⟨h, by rw [h], by rw [h]⟩

/-- Claim C5: the first `init` on a fresh database seeds the `categorias`
store with exactly one category of kind `ingreso`, one of kind `gasto`,
one of kind `ahorro`, and no others (three rows in total), for every
constructor option and environment handle counter. -/
theorem C5_seed_categorias (options : Option FinanzasDBOptions) (n : Nat) :
    (Env.categoriasRows ((FinanzasDB.make options).init ⟨none, n⟩).env).countP
        (fun c => decide (c.tipo = Tipo.ingreso)) = 1 ∧
    (Env.categoriasRows ((FinanzasDB.make options).init ⟨none, n⟩).env).countP
        (fun c => decide (c.tipo = Tipo.gasto)) = 1 ∧
    (Env.categoriasRows ((FinanzasDB.make options).init ⟨none, n⟩).env).countP
        (fun c => decide (c.tipo = Tipo.ahorro)) = 1 ∧
    (Env.categoriasRows ((FinanzasDB.make options).init ⟨none, n⟩).env).length = 3 :=
  ⟨rfl, rfl, rfl, rfl⟩

/-- Claim C7: for every category id, `obtenerTransaccionesPorCategoria`
returns, as a multiset (order irrelevant), exactly the transactions of
`obtenerTransacciones` whose `categoriaId` equals the id. -/
theorem C7_por_categoria_filtra (d : DBData) (categoriaId : Nat) :
    (↑(d.obtenerTransaccionesPorCategoria categoriaId) : Multiset Transaccion)
      = Multiset.filter (fun t => t.categoriaId = categoriaId)
          (↑d.obtenerTransacciones : Multiset Transaccion) := by
  simp [DBData.obtenerTransaccionesPorCategoria, DBData.obtenerTransacciones,
    Multiset.filter_coe]

/-- Claim C3 counterexample: recording a transaction whose `fecha` is the
truthy non-`Date` number 5 while `Date.now()` is 1000 stores
`new Date(5)`, not a date coerced to "now" (1000) as the claim states for
every missing-or-non-`Date` date. -/
theorem C3_counterexample :
    ((DBData.seed.registrarTransaccion 1000
        ⟨none, 1, 1, 100, none, FechaValue.numVal 5⟩).1).obtenerTransacciones
      = [⟨some 1, 1, 1, 100, none, FechaValue.dateObj 5⟩] ∧
    FechaValue.dateObj 5 ≠ FechaValue.dateObj 1000 :=
  ⟨rfl, by decide⟩

/-- Claim C3 (amended): for every transaction input without an explicit
id, `registrarTransaccion` followed by `obtenerTransacciones` yields a
list containing an entry whose fields equal the input with the id
auto-assigned and the date coerced as the code does: a `Date` is stored
unchanged, a missing (or falsy) date becomes "now", and a truthy
non-`Date` value v becomes `new Date(v)`. -/
theorem C3_registrar_luego_listar (d : DBData) (now : Int) (t : Transaccion)
    (hid : t.id = none) :
    ∃ k stored,
      (d.registrarTransaccion now t).2 = Except.ok k ∧
      stored ∈ DBData.obtenerTransacciones (d.registrarTransaccion now t).1 ∧
      stored.id = some k ∧
      stored.categoriaId = t.categoriaId ∧
      stored.subcategoriaId = t.subcategoriaId ∧
      stored.monto = t.monto ∧
      stored.descripcion = t.descripcion ∧
      (∀ x, t.fecha = FechaValue.dateObj x → stored.fecha = FechaValue.dateObj x) ∧
      (t.fecha = FechaValue.undef → stored.fecha = FechaValue.dateObj now) ∧
      (∀ v, t.fecha = FechaValue.numVal v
          → stored.fecha = FechaValue.dateObj (if v = 0 then now else v)) := by
  have hreg := DBData.registrarTransaccion_auto d now t hid
  refine ⟨d.transacciones.nextKey,
    { (if t.fecha.isDateObj then t
       else { t with fecha := .dateObj (t.fecha.orNow now) }) with
        id := some d.transacciones.nextKey }, ?_, ?_, rfl, ?_, ?_, ?_, ?_, ?_, ?_, ?_⟩
  · rw [hreg]
  · rw [hreg]
    simp [DBData.obtenerTransacciones]
  · split <;> rfl
  · split <;> rfl
  · split <;> rfl
  · split <;> rfl
  · intro x hx
    simp [hx, FechaValue.isDateObj]
  · intro hx
    simp [hx, FechaValue.isDateObj, FechaValue.orNow]
  · intro v hv
    simp [hv, FechaValue.isDateObj, FechaValue.orNow]

/-- Witness for C3 (amended) at a concrete input: the seeded database, a
transaction without id and without date, and `Date.now() = 7`. -/
theorem C3_registrar_luego_listar_witness :
    (Transaccion.id ⟨none, 1, 1, 100, none, FechaValue.undef⟩ = none) ∧
    (∃ k stored,
      (DBData.seed.registrarTransaccion 7 ⟨none, 1, 1, 100, none, FechaValue.undef⟩).2
          = Except.ok k ∧
      stored ∈ DBData.obtenerTransacciones
          (DBData.seed.registrarTransaccion 7 ⟨none, 1, 1, 100, none, FechaValue.undef⟩).1 ∧
      stored.id = some k ∧
      stored.categoriaId = 1 ∧
      stored.subcategoriaId = 1 ∧
      stored.monto = 100 ∧
      stored.descripcion = none ∧
      (∀ x, (⟨none, 1, 1, 100, none, FechaValue.undef⟩ : Transaccion).fecha
          = FechaValue.dateObj x → stored.fecha = FechaValue.dateObj x) ∧
      ((⟨none, 1, 1, 100, none, FechaValue.undef⟩ : Transaccion).fecha
          = FechaValue.undef → stored.fecha = FechaValue.dateObj 7) ∧
      (∀ v, (⟨none, 1, 1, 100, none, FechaValue.undef⟩ : Transaccion).fecha
          = FechaValue.numVal v
          → stored.fecha = FechaValue.dateObj (if v = 0 then 7 else v))) :=
  ⟨rfl, C3_registrar_luego_listar DBData.seed 7 ⟨none, 1, 1, 100, none, FechaValue.undef⟩ rfl⟩

/-- Claim C8: `actualizarTransaccion` with an id that matches no stored
transaction does not fail: it silently inserts the row as a new
transaction and resolves with its id. -/
theorem C8_actualizar_inserta (d : DBData) (t : Transaccion) (k : Nat)
    (hid : t.id = some k)
    (habs : ∀ t1 ∈ d.transacciones.rows, t1.id ≠ some k) :
    (d.actualizarTransaccion t).2 = Except.ok k ∧
    (d.actualizarTransaccion t).1.transacciones.rows = d.transacciones.rows ++ [t] := by
  have hput := ObjectStore.put_fresh Transaccion.kp d.transacciones t k
    (by simpa [Transaccion.kp] using hid)
    (by intro r hr; simpa [Transaccion.kp] using habs r hr)
  constructor <;> simp [DBData.actualizarTransaccion, hput]

/-- Witness for C8 at a concrete input: a database holding one transaction
with id 1, updated with a transaction carrying the fresh id 5. -/
theorem C8_actualizar_inserta_witness :
    (txC8W.id = some 5) ∧
    (∀ t1 ∈ dbC8W.transacciones.rows, t1.id ≠ some 5) ∧
    ((dbC8W.actualizarTransaccion txC8W).2 = Except.ok 5 ∧
      (dbC8W.actualizarTransaccion txC8W).1.transacciones.rows
        = dbC8W.transacciones.rows ++ [txC8W]) :=
  ⟨rfl, by decide, C8_actualizar_inserta dbC8W txC8W 5 rfl (by decide)⟩

/-- Claim C9: every public adapter operation awaits `init` before touching
a store, so from any well-formed adapter state (in particular a freshly
constructed one) no public operation can reject with the
"database not initialized" exception of the private `_getStore` helper. -/
theorem C9_init_precede_getStore (self : FinanzasDB) (env : Env)
    (hwf : FinanzasDB.wellFormed self env) :
    (∀ c, (self.agregarCategoria env c).result ≠ .error .notInitialized) ∧
    (∀ s, (self.agregarSubcategoria env s).result ≠ .error .notInitialized) ∧
    (∀ now t, (self.registrarTransaccion env now t).result ≠ .error .notInitialized) ∧
    ((self.obtenerTransacciones env).result ≠ .error .notInitialized) ∧
    (∀ cid, (self.obtenerTransaccionesPorCategoria env cid).result ≠ .error .notInitialized) ∧
    (∀ sid, (self.obtenerTransaccionesPorSubcategoria env sid).result ≠ .error .notInitialized) ∧
    (∀ a b, (self.obtenerTransaccionesPorFecha env a b).result ≠ .error .notInitialized) ∧
    ((self.obtenerCategorias env).result ≠ .error .notInitialized) ∧
    ((self.obtenerSubcategorias env).result ≠ .error .notInitialized) ∧
    (∀ cid, (self.obtenerSubcategoriasPorCategoria env cid).result ≠ .error .notInitialized) ∧
    (∀ t, (self.actualizarTransaccion env t).result ≠ .error .notInitialized) ∧
    (∀ i, (self.eliminarTransaccion env i).result ≠ .error .notInitialized) ∧
    ((self.obtenerResumenFinanciero env).result ≠ .error .notInitialized) ∧
    ((self.limpiarDatos env).result ≠ .error .notInitialized) := by
  refine ⟨?_, ?_, ?_, ?_, ?_, ?_, ?_, ?_, ?_, ?_, ?_, ?_, ?_, ?_⟩
  · intro c
    exact FinanzasDB.runOp_ne_notInit self env _ hwf (fun d => by
      simpa [DBData.agregarCategoria] using
        ObjectStore.add_ne_notInit Categoria.kp Categoria.nombreConflict d.categorias c)
  · intro s
    exact FinanzasDB.runOp_ne_notInit self env _ hwf (fun d => by
      simpa [DBData.agregarSubcategoria] using
        ObjectStore.add_ne_notInit Subcategoria.kp (fun _ _ => false) d.subcategorias s)
  · intro now t
    exact FinanzasDB.runOp_ne_notInit self env _ hwf (fun d => by
      simpa [DBData.registrarTransaccion] using
        ObjectStore.add_ne_notInit Transaccion.kp (fun _ _ => false) d.transacciones
          (if t.fecha.isDateObj then t
           else { t with fecha := .dateObj (t.fecha.orNow now) }))
  · exact FinanzasDB.runOp_ne_notInit self env _ hwf (fun d => by simp)
  · intro cid
    exact FinanzasDB.runOp_ne_notInit self env _ hwf (fun d => by simp)
  · intro sid
    exact FinanzasDB.runOp_ne_notInit self env _ hwf (fun d => by simp)
  · intro a b
    exact FinanzasDB.runOp_ne_notInit self env _ hwf (fun d => by simp)
  · exact FinanzasDB.runOp_ne_notInit self env _ hwf (fun d => by simp)
  · exact FinanzasDB.runOp_ne_notInit self env _ hwf (fun d => by simp)
  · intro cid
    exact FinanzasDB.runOp_ne_notInit self env _ hwf (fun d => by simp)
  · intro t
    exact FinanzasDB.runOp_ne_notInit self env _ hwf (fun d => by
      simpa [DBData.actualizarTransaccion] using
        ObjectStore.put_ne_notInit Transaccion.kp d.transacciones t)
  · intro i
    exact FinanzasDB.runOp_ne_notInit self env _ hwf (fun d => by
      simp [DBData.eliminarTransaccion])
  · exact FinanzasDB.runOp_ne_notInit self env _ hwf (fun d => by simp)
  · exact FinanzasDB.runOp_ne_notInit self env _ hwf (fun d => by
      simp [DBData.limpiarDatos])

/-- Witness for C9 at a concrete input: a freshly constructed adapter on a
fresh environment is well formed, and its `obtenerTransacciones` does not
reject with the not-initialized error. -/
theorem C9_init_precede_getStore_witness :
    FinanzasDB.wellFormed (FinanzasDB.make none) ⟨none, 1⟩ ∧
    ((FinanzasDB.make none).obtenerTransacciones ⟨none, 1⟩).result
      ≠ .error .notInitialized :=
  ⟨fun h _ => absurd h (by simp [FinanzasDB.make]),
    (C9_init_precede_getStore (FinanzasDB.make none) ⟨none, 1⟩
      (fun h _ => absurd h (by simp [FinanzasDB.make]))).2.2.2.1⟩

/-- Claim C6: while `isLoading` is true each facade entry point returns
`undefined` without recording anything (and `obtenerResumen` returns
null); otherwise each records a transaction whose `categoriaId` is fixed
to the seeded id (1 income, 2 expense, 3 savings), whose date defaults to
"now" when absent, and resolves with the new transaction id. -/
theorem C6_facade (self : FinanzasDB) (env : Env) (now : Int) (data : TransaccionData)
    (d : DBData) (hex : env.existing = some d) (hid : data.id = none) :
    UseFinanzas.registrarIngreso true self env now data = (self, env, none) ∧
    UseFinanzas.registrarGasto true self env now data = (self, env, none) ∧
    UseFinanzas.registrarAhorro true self env now data = (self, env, none) ∧
    UseFinanzas.obtenerResumen true self env = (self, env, none) ∧
    (∃ k, (UseFinanzas.registrarIngreso false self env now data).2.2
            = some (Except.ok k) ∧
      Env.transaccionesRows (UseFinanzas.registrarIngreso false self env now data).2.1
        = d.transacciones.rows ++
            [⟨some k, 1, data.subcategoriaId, data.monto, data.descripcion,
              FechaValue.dateObj (data.fecha.getD now)⟩]) ∧
    (∃ k, (UseFinanzas.registrarGasto false self env now data).2.2
            = some (Except.ok k) ∧
      Env.transaccionesRows (UseFinanzas.registrarGasto false self env now data).2.1
        = d.transacciones.rows ++
            [⟨some k, 2, data.subcategoriaId, data.monto, data.descripcion,
              FechaValue.dateObj (data.fecha.getD now)⟩]) ∧
    (∃ k, (UseFinanzas.registrarAhorro false self env now data).2.2
            = some (Except.ok k) ∧
      Env.transaccionesRows (UseFinanzas.registrarAhorro false self env now data).2.1
        = d.transacciones.rows ++
            [⟨some k, 3, data.subcategoriaId, data.monto, data.descripcion,
              FechaValue.dateObj (data.fecha.getD now)⟩]) := by
  refine ⟨rfl, rfl, rfl, rfl, ?_, ?_, ?_⟩
  · have hbody := DBData.registrarTransaccion_auto d now
      { id := data.id, categoriaId := 1, subcategoriaId := data.subcategoriaId,
        monto := data.monto, descripcion := data.descripcion,
        fecha := .dateObj (data.fecha.getD now) } hid
    have hrun := FinanzasDB.runOp_existing self env d
      (fun d0 => d0.registrarTransaccion now
        { id := data.id, categoriaId := 1, subcategoriaId := data.subcategoriaId,
          monto := data.monto, descripcion := data.descripcion,
          fecha := .dateObj (data.fecha.getD now) }) hex
    refine ⟨d.transacciones.nextKey, ?_, ?_⟩ <;>
      simp [UseFinanzas.registrarIngreso, FinanzasDB.registrarTransaccion, hrun,
        hbody, Env.transaccionesRows, FechaValue.isDateObj]
  · have hbody := DBData.registrarTransaccion_auto d now
      { id := data.id, categoriaId := 2, subcategoriaId := data.subcategoriaId,
        monto := data.monto, descripcion := data.descripcion,
        fecha := .dateObj (data.fecha.getD now) } hid
    have hrun := FinanzasDB.runOp_existing self env d
      (fun d0 => d0.registrarTransaccion now
        { id := data.id, categoriaId := 2, subcategoriaId := data.subcategoriaId,
          monto := data.monto, descripcion := data.descripcion,
          fecha := .dateObj (data.fecha.getD now) }) hex
    refine ⟨d.transacciones.nextKey, ?_, ?_⟩ <;>
      simp [UseFinanzas.registrarGasto, FinanzasDB.registrarTransaccion, hrun,
        hbody, Env.transaccionesRows, FechaValue.isDateObj]
  · have hbody := DBData.registrarTransaccion_auto d now
      { id := data.id, categoriaId := 3, subcategoriaId := data.subcategoriaId,
        monto := data.monto, descripcion := data.descripcion,
        fecha := .dateObj (data.fecha.getD now) } hid
    have hrun := FinanzasDB.runOp_existing self env d
      (fun d0 => d0.registrarTransaccion now
        { id := data.id, categoriaId := 3, subcategoriaId := data.subcategoriaId,
          monto := data.monto, descripcion := data.descripcion,
          fecha := .dateObj (data.fecha.getD now) }) hex
    refine ⟨d.transacciones.nextKey, ?_, ?_⟩ <;>
      simp [UseFinanzas.registrarAhorro, FinanzasDB.registrarTransaccion, hrun,
        hbody, Env.transaccionesRows, FechaValue.isDateObj]

/-- Witness for C6 at a concrete input: an initialized environment holding
the seeded database, `Date.now() = 99`, and an input without id and
without date. -/
theorem C6_facade_witness :
    ((⟨some DBData.seed, 5⟩ : Env).existing = some DBData.seed) ∧
    ((⟨none, 1, 100, none, none⟩ : TransaccionData).id = none) ∧
    (UseFinanzas.registrarIngreso true (FinanzasDB.make none) ⟨some DBData.seed, 5⟩ 99
        ⟨none, 1, 100, none, none⟩
      = (FinanzasDB.make none, ⟨some DBData.seed, 5⟩, none)) ∧
    (∃ k, (UseFinanzas.registrarIngreso false (FinanzasDB.make none) ⟨some DBData.seed, 5⟩ 99
            ⟨none, 1, 100, none, none⟩).2.2 = some (Except.ok k) ∧
      Env.transaccionesRows
          (UseFinanzas.registrarIngreso false (FinanzasDB.make none) ⟨some DBData.seed, 5⟩ 99
            ⟨none, 1, 100, none, none⟩).2.1
        = DBData.seed.transacciones.rows ++
            [⟨some k, 1, 1, 100, none, FechaValue.dateObj 99⟩]) :=
  ⟨rfl, rfl,
    (C6_facade (FinanzasDB.make none) ⟨some DBData.seed, 5⟩ 99 ⟨none, 1, 100, none, none⟩
      DBData.seed rfl rfl).1,
    (C6_facade (FinanzasDB.make none) ⟨some DBData.seed, 5⟩ 99 ⟨none, 1, 100, none, none⟩
      DBData.seed rfl rfl).2.2.2.2.1⟩

/-- Claim C10: each income-store operation touches at most the targeted
entry: `addIncome` appends exactly one entry under the freshly generated
unique id, keeping every previous entry in place; `removeIncome` removes
at most the entry with the given id (a no-op on an absent id), leaving
every other key unchanged; `updateIncome` replaces the entry at the given
id in place (or appends it when absent), leaving every other key
unchanged. -/
theorem C10_income_frame (st : IncomeState) (uuid : String) (inc : IncomeInput)
    (rid uid : String) (updated : Income)
    (hfresh : JsMap.get st.incomes uuid = none) :
    ((UseIncome.addIncome uuid inc st).incomes.entries
        = st.incomes.entries ++
            [(uuid, ⟨uuid, inc.name, inc.value, inc.isDeductible, inc.description⟩)]) ∧
    (∀ k, k ≠ rid → JsMap.get (UseIncome.removeIncome rid st).incomes k
        = JsMap.get st.incomes k) ∧
    (JsMap.get st.incomes rid = none → UseIncome.removeIncome rid st = st) ∧
    ((JsMap.get st.incomes rid).isSome = true →
      (UseIncome.removeIncome rid st).incomes.entries.length + 1
        = st.incomes.entries.length) ∧
    (JsMap.get (UseIncome.updateIncome uid updated st).incomes uid = some updated) ∧
    (∀ k, k ≠ uid → JsMap.get (UseIncome.updateIncome uid updated st).incomes k
        = JsMap.get st.incomes k) ∧
    ((JsMap.get st.incomes uid).isSome = true →
      (UseIncome.updateIncome uid updated st).incomes.entries.length
        = st.incomes.entries.length) ∧
    (JsMap.get st.incomes uid = none →
      (UseIncome.updateIncome uid updated st).incomes.entries
        = st.incomes.entries ++ [(uid, updated)]) := by
  refine ⟨?_, ?_, ?_, ?_, ?_, ?_, ?_, ?_⟩
  · exact JsMap.setEntries_of_get_none _ _ _ hfresh
  · intro k hk
    exact JsMap.getEntries_delete_ne _ _ _ hk
  · intro h
    have hdel := JsMap.deleteEntries_of_get_none st.incomes.entries rid h
    show UseIncome.removeIncome rid st = st
    unfold UseIncome.removeIncome JsMap.delete
    rw [hdel]
  · intro h
    exact JsMap.length_deleteEntries_of_isSome _ _ h
  · exact JsMap.getEntries_set_self _ _ _
  · intro k hk
    exact JsMap.getEntries_set_ne _ _ _ _ hk
  · intro h
    exact JsMap.length_setEntries_of_isSome _ _ _ h
  · intro h
    exact JsMap.setEntries_of_get_none _ _ _ h

/-- Witness for C10 at a concrete input: a store with one entry under key
"a", a fresh uuid "b", and remove/update targeting key "a". -/
theorem C10_income_frame_witness :
    (JsMap.get stC10W.incomes "b" = none) ∧
    (((UseIncome.addIncome "b" incC10W stC10W).incomes.entries
        = stC10W.incomes.entries ++
            [("b", ⟨"b", incC10W.name, incC10W.value, incC10W.isDeductible,
              incC10W.description⟩)]) ∧
    (∀ k, k ≠ "a" → JsMap.get (UseIncome.removeIncome "a" stC10W).incomes k
        = JsMap.get stC10W.incomes k) ∧
    (JsMap.get stC10W.incomes "a" = none → UseIncome.removeIncome "a" stC10W = stC10W) ∧
    ((JsMap.get stC10W.incomes "a").isSome = true →
      (UseIncome.removeIncome "a" stC10W).incomes.entries.length + 1
        = stC10W.incomes.entries.length) ∧
    (JsMap.get (UseIncome.updateIncome "a" updC10W stC10W).incomes "a" = some updC10W) ∧
    (∀ k, k ≠ "a" → JsMap.get (UseIncome.updateIncome "a" updC10W stC10W).incomes k
        = JsMap.get stC10W.incomes k) ∧
    ((JsMap.get stC10W.incomes "a").isSome = true →
      (UseIncome.updateIncome "a" updC10W stC10W).incomes.entries.length
        = stC10W.incomes.entries.length) ∧
    (JsMap.get stC10W.incomes "a" = none →
      (UseIncome.updateIncome "a" updC10W stC10W).incomes.entries
        = stC10W.incomes.entries ++ [("a", updC10W)])) :=
  ⟨by decide, C10_income_frame stC10W "b" incC10W "a" "a" updC10W (by decide)⟩
